import Mathlib

/-!
Shallow embedding of the `nes_oxide` NES emulator core (Rust), used to check
the natural-language specification against the source.

Conventions of the embedding:
* machine integers (`u8`, `u16`, `u64`) are `Nat`, with `% 256` / `% 65536`
  (or `&&& 0xFF` etc., matching the source expression) exactly where the Rust
  code wraps;
* `&mut self` methods become state-passing functions `State → ... → Val × State`
  (or `State → State` when they return `()`);
* fixed-size byte arrays (`ram`, `vram`, `palette_table`, `oam_data`) are
  functions `Nat → Nat`; growable byte vectors (`Vec<u8>` ROM images) are a
  `ByteVec` (contents function plus length), since the source only ever
  indexes, slices and takes the length of them;
* `bitflags` registers are a plain `Nat` holding the bit pattern, with the
  flag constants of the source and `setFlag` for `bitflags::set`.
-/

/-- Byte vector: contents plus length (embedding of `Vec<u8>`). -/
structure ByteVec where
  data : Nat → Nat
  size : Nat

/-- `&v[start..start+len]` (bounds are checked at each call site, as Rust does). -/
def ByteVec.slice (b : ByteVec) (start len : Nat) : ByteVec :=
  ⟨fun i => b.data (start + i), len⟩

/-- `bitflags` `set`: install or clear the bits of `mask` in an 8-bit field. -/
def setFlag (s mask : Nat) (b : Bool) : Nat :=
  if b then s ||| mask else s &&& (0xFF ^^^ mask)

/-- `bitflags` `intersects`/`contains` for a single-bit mask. -/
def testFlag (s mask : Nat) : Bool :=
  s &&& mask != 0

-- # src/cpu/cartridge.rs

/-- `enum Mirroring`. -/
inductive Mirroring where
  | Vertical
  | Horizontal
  | FourScreen
deriving DecidableEq

-- # src/ppu/registers.rs

/-- `StatusRegister` bit (`1 << 5`). -/
def StatusRegister.SPRITE_OVERFLOW : Nat := 1 <<< 5
/-- `StatusRegister` bit (`1 << 6`). -/
def StatusRegister.SPRITE_ZERO_HIT : Nat := 1 <<< 6
/-- `StatusRegister` bit (`1 << 7`). -/
def StatusRegister.VBLANK_STARTED : Nat := 1 <<< 7

/-- `ControlRegister` bit (`1 << 2`). -/
def ControlRegister.VRAM_ADD_INCREMENT : Nat := 1 <<< 2
/-- `ControlRegister` bit (`1 << 7`). -/
def ControlRegister.GENERATE_NMI : Nat := 1 <<< 7

/-- `ControlRegister::vram_addr_increment`. -/
def ControlRegister.vram_addr_increment (ctrl : Nat) : Nat :=
  if testFlag ctrl ControlRegister.VRAM_ADD_INCREMENT then 32 else 1

/-- `AddressRegister`: `value: (u8, u8)` is split into the fields `hi`/`lo`
(`value.0`/`value.1` of the source), plus the `high_byte` latch. -/
structure AddressRegister where
  hi : Nat
  lo : Nat
  high_byte : Bool

/-- `AddressRegister::default`. -/
def AddressRegister.default : AddressRegister :=
  ⟨0, 0, true⟩

/-- `AddressRegister::get`. -/
def AddressRegister.get (a : AddressRegister) : Nat :=
  (a.hi <<< 8) ||| a.lo

/-- `AddressRegister::set`. -/
def AddressRegister.set (a : AddressRegister) (value : Nat) : AddressRegister :=
  { a with hi := (value >>> 8) &&& 0xFF, lo := value &&& 0xFF }

/-- `AddressRegister::update`. -/
def AddressRegister.update (a : AddressRegister) (data : Nat) : AddressRegister :=
  let a := if a.high_byte then { a with hi := data } else { a with lo := data }
  let a := if a.get > 0x3FFF then a.set (a.get &&& 0x3FFF) else a
  { a with high_byte := !a.high_byte }

/-- `AddressRegister::increment` (low byte wraps; carry into high byte on wrap). -/
def AddressRegister.increment (a : AddressRegister) (value : Nat) : AddressRegister :=
  let lo := a.lo
  let a := { a with lo := (a.lo + value) % 256 }
  let a := if lo > a.lo then { a with hi := (a.hi + 1) % 256 } else a
  if a.get > 0x3FFF then a.set (a.get &&& 0x3FFF) else a

/-- `ScrollRegister`. -/
structure ScrollRegister where
  x : Nat
  y : Nat
  latch : Bool

/-- `ScrollRegister::default`. -/
def ScrollRegister.default : ScrollRegister :=
  ⟨0, 0, false⟩

/-- `ScrollRegister::update`. -/
def ScrollRegister.update (s : ScrollRegister) (data : Nat) : ScrollRegister :=
  let s := if !s.latch then { s with x := data } else { s with y := data }
  { s with latch := !s.latch }

-- # src/ppu/mod.rs

/-- `const CHR_ROM_BEGIN: u16 = 0`. -/
def CHR_ROM_BEGIN : Nat := 0
/-- `const CHR_ROM_END: u16 = 0x01FF` (sic: the source says `0x01FF`, not `0x1FFF`). -/
def CHR_ROM_END : Nat := 0x01FF
/-- `const VRAM_BEGIN: u16 = 0x2000`. -/
def VRAM_BEGIN : Nat := 0x2000
/-- `const VRAM_END: u16 = 0x2FFF`. -/
def VRAM_END : Nat := 0x2FFF
/-- `const PALETTE_BEGIN: u16 = 0x3F00`. -/
def PALETTE_BEGIN : Nat := 0x3F00
/-- `const PALETTE_END: u16 = 0x3FFF`. -/
def PALETTE_END : Nat := 0x3FFF

/-- `struct Ppu`. -/
structure Ppu where
  chr_rom : ByteVec
  palette_table : Nat → Nat
  vram : Nat → Nat
  oam_data : Nat → Nat
  mirroring : Mirroring
  data_buffer : Nat
  addr : AddressRegister
  ctrl : Nat
  mask : Nat
  status : Nat
  scroll : ScrollRegister
  oam_addr : Nat
  cycle : Nat
  scanline : Nat
  nmi_interrupt : Option Nat

/-- `Ppu::new`. -/
def Ppu.new (chr_rom : ByteVec) (mirroring : Mirroring) : Ppu :=
  { chr_rom := chr_rom
    palette_table := fun _ => 0
    vram := fun _ => 0
    oam_data := fun _ => 0
    mirroring := mirroring
    data_buffer := 0
    addr := AddressRegister.default
    ctrl := 0
    mask := 0
    status := 0
    scroll := ScrollRegister.default
    oam_addr := 0
    cycle := 0
    scanline := 0
    nmi_interrupt := none }

/-- `Ppu::step`: advance the PPU clock; returns `(frame_complete, ppu)`. -/
def Ppu.step (p : Ppu) (cycles : Nat) : Bool × Ppu :=
  let p := { p with cycle := p.cycle + cycles }
  if p.cycle ≥ 341 then
    let p := { p with cycle := p.cycle - 341, scanline := p.scanline + 1 }
    let p : Ppu :=
      if p.scanline = 241 then
        let p := { p with status := setFlag p.status StatusRegister.VBLANK_STARTED true }
        let p := { p with status := setFlag p.status StatusRegister.SPRITE_ZERO_HIT false }
        if testFlag p.ctrl ControlRegister.GENERATE_NMI then
          { p with nmi_interrupt := some 1 }
        else p
      else p
    if p.scanline ≥ 262 then
      let p := { p with scanline := 0, nmi_interrupt := none }
      let p := { p with status := setFlag p.status StatusRegister.VBLANK_STARTED false }
      let p := { p with status := setFlag p.status StatusRegister.SPRITE_ZERO_HIT true }
      (true, p)
    else
      (false, p)
  else
    (false, p)

/-- `Ppu::write_addr`. -/
def Ppu.write_addr (p : Ppu) (value : Nat) : Ppu :=
  { p with addr := p.addr.update value }

/-- `Ppu::write_ctrl`. -/
def Ppu.write_ctrl (p : Ppu) (value : Nat) : Ppu :=
  let nmi_status := testFlag p.ctrl ControlRegister.GENERATE_NMI
  let p := { p with ctrl := value &&& 0xFF }
  if !nmi_status
      && testFlag p.ctrl ControlRegister.GENERATE_NMI
      && testFlag p.status StatusRegister.VBLANK_STARTED then
    { p with nmi_interrupt := some 1 }
  else p

/-- `Ppu::write_mask`. -/
def Ppu.write_mask (p : Ppu) (value : Nat) : Ppu :=
  { p with mask := value &&& 0xFF }

/-- `Ppu::read_status`: return the status byte, then clear `VBLANK_STARTED`
and reset the scroll and address latches. -/
def Ppu.read_status (p : Ppu) : Nat × Ppu :=
  let data := p.status
  let p := { p with status := setFlag p.status StatusRegister.VBLANK_STARTED false }
  let p := { p with scroll := { p.scroll with latch := false } }
  let p := { p with addr := { p.addr with high_byte := true } }
  (data, p)

/-- `Ppu::write_oam_addr`. -/
def Ppu.write_oam_addr (p : Ppu) (value : Nat) : Ppu :=
  { p with oam_addr := value }

/-- `Ppu::write_oam_data`. -/
def Ppu.write_oam_data (p : Ppu) (value : Nat) : Ppu :=
  let p := { p with oam_data := fun i => if i = p.oam_addr then value else p.oam_data i }
  { p with oam_addr := (p.oam_addr + 1) % 256 }

/-- `Ppu::write_oam_dma`: write each byte of the buffer at `oam_addr`, wrapping. -/
def Ppu.write_oam_dma (p : Ppu) (data : List Nat) : Ppu :=
  data.foldl (fun p x => p.write_oam_data x) p

/-- `Ppu::read_oam_data`. -/
def Ppu.read_oam_data (p : Ppu) : Nat :=
  p.oam_data p.oam_addr

/-- `Ppu::write_scroll`. -/
def Ppu.write_scroll (p : Ppu) (value : Nat) : Ppu :=
  { p with scroll := p.scroll.update value }

/-- `Ppu::palette_mirror`: `addr & 0x1F`, minus 16 when `addr >= 16` and
`addr.trailing_zeros() >= 2` (i.e. divisible by 4). -/
def Ppu.palette_mirror (addr : Nat) : Nat :=
  let addr := addr &&& 0x001F
  if addr ≥ 16 ∧ addr % 4 = 0 then addr - 16 else addr

/-- `Ppu::mirror_vram_addr`. -/
def Ppu.mirror_vram_addr (p : Ppu) (addr : Nat) : Nat :=
  let mirrored_vram := addr &&& 0x2FFF
  let vram_index := mirrored_vram - 0x2000
  let name_table := vram_index / 0x400
  match p.mirroring, name_table with
  | Mirroring.Vertical, 2 => vram_index - 0x800
  | Mirroring.Vertical, 3 => vram_index - 0x800
  | Mirroring.Horizontal, 3 => vram_index - 0x800
  | Mirroring.Horizontal, 1 => vram_index - 0x400
  | Mirroring.Horizontal, 2 => vram_index - 0x400
  | _, _ => vram_index

/-- `Ppu::read_data` (the `$2007` data port read). -/
def Ppu.read_data (p : Ppu) : Nat × Ppu :=
  let addr := p.addr.get
  let p := { p with addr := p.addr.increment (ControlRegister.vram_addr_increment p.ctrl) }
  if CHR_ROM_BEGIN ≤ addr ∧ addr ≤ CHR_ROM_END then
    let result := p.data_buffer
    (result, { p with data_buffer := p.chr_rom.data addr })
  else if VRAM_BEGIN ≤ addr ∧ addr ≤ VRAM_END then
    let result := p.data_buffer
    (result, { p with data_buffer := p.vram (p.mirror_vram_addr addr) })
  else if addr = 0x3F10 ∨ addr = 0x3F14 ∨ addr = 0x3F18 ∨ addr = 0x3F1C then
    (p.palette_table (addr - 0x3F10), p)
  else if PALETTE_BEGIN ≤ addr ∧ addr ≤ PALETTE_END then
    (p.palette_table (Ppu.palette_mirror addr), p)
  else
    (0, p)

/-- `Ppu::write_data` (the `$2007` data port write). -/
def Ppu.write_data (p : Ppu) (value : Nat) : Ppu :=
  let addr := p.addr.get
  let p := { p with addr := p.addr.increment (ControlRegister.vram_addr_increment p.ctrl) }
  let mirrored_addr := p.mirror_vram_addr addr
  if CHR_ROM_BEGIN ≤ addr ∧ addr ≤ CHR_ROM_END then
    p
  else if VRAM_BEGIN ≤ addr ∧ addr ≤ VRAM_END then
    { p with vram := fun i => if i = mirrored_addr then value else p.vram i }
  else if addr = 0x3F10 ∨ addr = 0x3F14 ∨ addr = 0x3F18 ∨ addr = 0x3F1C then
    { p with palette_table := fun i => if i = addr - 0x3F10 then value else p.palette_table i }
  else if PALETTE_BEGIN ≤ addr ∧ addr ≤ PALETTE_END then
    { p with palette_table :=
        fun i => if i = Ppu.palette_mirror addr then value else p.palette_table i }
  else
    p

/-- `Ppu::poll_nmi_status` (`Option::take`). -/
def Ppu.poll_nmi_status (p : Ppu) : Option Nat × Ppu :=
  (p.nmi_interrupt, { p with nmi_interrupt := none })

-- # src/cpu/cartridge.rs (loader)

/-- `const PRG_ROM_PAGE_SIZE: usize = 16384`. -/
def PRG_ROM_PAGE_SIZE : Nat := 16384
/-- `const CHR_ROM_PAGE_SIZE: usize = 8192`. -/
def CHR_ROM_PAGE_SIZE : Nat := 8192

/-- `struct Cartridge`. -/
structure Cartridge where
  prg_rom : ByteVec
  chr_rom : ByteVec
  mapper : Nat
  mirroring : Mirroring

/-- Error message of the magic-byte check in `Cartridge::new`. -/
def badMagicMsg : String := "FILE IS NOT AN iNES ROM"
/-- Error message of the iNES 2.0 check in `Cartridge::new`. -/
def inesV2Msg : String := "iNES VERSION 2 IS NOT SUPPORTED"
/-- Error message of the iNES version check in `Cartridge::new`. -/
def badVersionMsg : String := "UNSUPPORTED iNES VERSION DETECTED"

/-- Outcome of `Cartridge::new`: `Ok`, `Err(String)`, or a Rust panic from an
out-of-range index/slice of the input (the source does not bounds-check). -/
inductive LoadResult where
  | ok (c : Cartridge)
  | err (msg : String)
  | outOfBounds

/-- `Cartridge::new`. Each indexing/slicing of `bytes` in the source panics
when out of range; the embedding makes those checks explicit, in source
order, yielding `LoadResult.outOfBounds`. -/
def Cartridge.new (bytes : ByteVec) : LoadResult :=
  -- `&bytes[0..4] != NES_TAG`
  if bytes.size < 4 then LoadResult.outOfBounds
  else if !(bytes.data 0 == 0x4E && bytes.data 1 == 0x45
      && bytes.data 2 == 0x53 && bytes.data 3 == 0x1A) then
    LoadResult.err badMagicMsg
  -- `bytes[7]`, `bytes[6]`, `bytes[4]`, `bytes[5]` are all read below
  else if bytes.size < 8 then LoadResult.outOfBounds
  else
    let mapper := (bytes.data 7 &&& 0xF0) ||| (bytes.data 6 >>> 4)
    let ines_version := (bytes.data 7 >>> 2) &&& 0x03
    if ines_version = 2 then LoadResult.err inesV2Msg
    else if ines_version ≠ 0 then LoadResult.err badVersionMsg
    else
      let four_screen := bytes.data 6 &&& 0x08 ≠ 0
      let vertical_mirroring := bytes.data 6 &&& 0x01 ≠ 0
      let mirroring :=
        if four_screen then Mirroring.FourScreen
        else if vertical_mirroring then Mirroring.Vertical
        else Mirroring.Horizontal
      let prg_rom_length := bytes.data 4 * PRG_ROM_PAGE_SIZE
      let chr_rom_length := bytes.data 5 * CHR_ROM_PAGE_SIZE
      -- `if bytes[6] & 0x04 == 1 { 512 } else { 0 }` (verbatim from the source)
      let trainer_length := if bytes.data 6 &&& 0x04 = 1 then 512 else 0
      let prg_rom_start := 16 + trainer_length
      let chr_rom_start := prg_rom_start + prg_rom_length
      -- `bytes[prg_rom_start..(prg_rom_start + prg_rom_length)]`
      if bytes.size < prg_rom_start + prg_rom_length then LoadResult.outOfBounds
      -- `bytes[chr_rom_start..(chr_rom_start + chr_rom_length)]`
      else if bytes.size < chr_rom_start + chr_rom_length then LoadResult.outOfBounds
      else
        LoadResult.ok
          { prg_rom := bytes.slice prg_rom_start prg_rom_length
            chr_rom := bytes.slice chr_rom_start chr_rom_length
            mapper := mapper
            mirroring := mirroring }

-- # src/cpu/bus.rs

/-- `const RAM_END: u16 = 0x1FFF`. -/
def RAM_END : Nat := 0x1FFF
/-- `const PPU_REGISTER_BEGIN: u16 = 0x2000`. -/
def PPU_REGISTER_BEGIN : Nat := 0x2000
/-- `const PPU_REGISTER_END: u16 = 0x3FFF`. -/
def PPU_REGISTER_END : Nat := 0x3FFF
/-- `const PPU_OAM_DMA: u16 = 0x4014`. -/
def PPU_OAM_DMA : Nat := 0x4014
/-- `const PRG_ROM_BEGIN: u16 = 0x8000`. -/
def PRG_ROM_BEGIN : Nat := 0x8000
/-- `const PRG_ROM_END: u16 = 0xFFFF`. -/
def PRG_ROM_END : Nat := 0xFFFF

/-- `struct Bus`. -/
structure Bus where
  ram : Nat → Nat
  cartridge : Cartridge
  ppu : Ppu

/-- `Bus::new` (2 KiB of zeroed RAM; PPU built from the cartridge CHR). -/
def Bus.new (cartridge : Cartridge) : Bus :=
  { ram := fun _ => 0
    ppu := Ppu.new cartridge.chr_rom cartridge.mirroring
    cartridge := cartridge }

/-- `Bus::read`. The source forwards `$2008..=$3FFF` to `addr & 0x2007` by a
recursive call; the embedding folds that mirror-down into one dispatch on
`addr & 0x2007`, which covers `$2000..=$2007` identically. -/
def Bus.read (b : Bus) (addr : Nat) : Nat × Bus :=
  if addr ≤ RAM_END then
    (b.ram (addr &&& 0x7FF), b)
  else if addr ≤ PPU_REGISTER_END then
    let r := addr &&& 0x2007
    if r = 0x2002 then
      let (v, p) := b.ppu.read_status
      (v, { b with ppu := p })
    else if r = 0x2004 then
      (b.ppu.read_oam_data, b)
    else if r = 0x2007 then
      let (v, p) := b.ppu.read_data
      (v, { b with ppu := p })
    else
      -- write-only registers (`$2000/$2001/$2003/$2005/$2006`) read as 0
      (0, b)
  else if addr = PPU_OAM_DMA then
    -- `$4014` is write-only; reads return 0
    (0, b)
  else if PRG_ROM_BEGIN ≤ addr ∧ addr ≤ PRG_ROM_END then
    let rom_location := addr - 0x8000
    let rom_location :=
      if b.cartridge.prg_rom.size = 0x4000 then rom_location % 0x4000 else rom_location
    (b.cartridge.prg_rom.data rom_location, b)
  else
    (0, b)

/-- `Bus::read_u16` (little-endian, two sequential reads). -/
def Bus.read_u16 (b : Bus) (addr : Nat) : Nat × Bus :=
  let (lsb, b) := b.read addr
  let (msb, b) := b.read ((addr + 1) % 65536)
  ((msb <<< 8) ||| lsb, b)

/-- `Bus::read_u16_zp` (`addr: u8`; the high byte wraps inside the zero page). -/
def Bus.read_u16_zp (b : Bus) (addr : Nat) : Nat × Bus :=
  let (lo, b) := b.read addr
  let (hi, b) := b.read ((addr + 1) % 256)
  ((hi <<< 8) ||| lo, b)

/-- The OAM DMA fill loop of `Bus::write`: read `fuel` bytes sequentially
through the CPU read path starting at `hi + i` (reads may mutate the bus). -/
def Bus.dma_fill (b : Bus) (hi : Nat) : Nat → Nat → List Nat × Bus
  | _, 0 => ([], b)
  | i, fuel + 1 =>
    let (v, b1) := b.read (hi + i)
    let (rest, b2) := Bus.dma_fill b1 hi (i + 1) fuel
    (v :: rest, b2)

/-- `Bus::write`. As in `Bus.read`, the `$2008..=$3FFF` mirror-down recursion
of the source is folded into one dispatch on `addr & 0x2007`. -/
def Bus.write (b : Bus) (addr value : Nat) : Bus :=
  if addr ≤ RAM_END then
    { b with ram := fun i => if i = (addr &&& 0x7FF) then value else b.ram i }
  else if addr ≤ PPU_REGISTER_END then
    let r := addr &&& 0x2007
    if r = 0x2000 then { b with ppu := b.ppu.write_ctrl value }
    else if r = 0x2001 then { b with ppu := b.ppu.write_mask value }
    else if r = 0x2002 then b -- write to PPU status dropped (logged)
    else if r = 0x2003 then { b with ppu := b.ppu.write_oam_addr value }
    else if r = 0x2004 then { b with ppu := b.ppu.write_oam_data value }
    else if r = 0x2005 then { b with ppu := b.ppu.write_scroll value }
    else if r = 0x2006 then { b with ppu := b.ppu.write_addr value }
    else { b with ppu := b.ppu.write_data value } -- r = 0x2007
  else if addr = PPU_OAM_DMA then
    -- copy 256 bytes from `value << 8` through the CPU read path into OAM
    let hi := value <<< 8
    let (buffer, b2) := Bus.dma_fill b hi 0 256
    { b2 with ppu := b2.ppu.write_oam_dma buffer }
  else if PRG_ROM_BEGIN ≤ addr ∧ addr ≤ PRG_ROM_END then
    b -- write to PRG ROM dropped (logged)
  else
    b -- other addresses ignored (logged)

-- # src/cpu/controller.rs

/-- `struct Controller`. -/
structure Controller where
  step_mode : Bool
  pause : Bool
  quit : Bool

/-- `Controller::default`. -/
def Controller.default : Controller :=
  ⟨false, false, false⟩

-- # src/cpu/cpu.rs (registers, stack, branch)

/-- `CpuStatusRegister::C`. -/
def CpuStatusRegister.C : Nat := 1
/-- `CpuStatusRegister::Z`. -/
def CpuStatusRegister.Z : Nat := 1 <<< 1
/-- `CpuStatusRegister::I`. -/
def CpuStatusRegister.I : Nat := 1 <<< 2
/-- `CpuStatusRegister::D`. -/
def CpuStatusRegister.D : Nat := 1 <<< 3
/-- `CpuStatusRegister::B`. -/
def CpuStatusRegister.B : Nat := 1 <<< 4
/-- `CpuStatusRegister::U`. -/
def CpuStatusRegister.U : Nat := 1 <<< 5
/-- `CpuStatusRegister::V`. -/
def CpuStatusRegister.V : Nat := 1 <<< 6
/-- `CpuStatusRegister::N`. -/
def CpuStatusRegister.N : Nat := 1 <<< 7

/-- `struct Cpu`. -/
structure Cpu where
  cycle : Nat
  pc : Nat
  sp : Nat
  r_a : Nat
  r_x : Nat
  r_y : Nat
  status : Nat
  bus : Bus
  controller : Controller

/-- `Cpu::new`: reset state (`sp = 0xFD`, `pc = read_u16($FFFC)`,
`status = U | I`, `cycle = 7`). -/
def Cpu.new (bus : Bus) : Cpu :=
  let (pc, bus) := bus.read_u16 0xFFFC
  { cycle := 7
    pc := pc
    sp := 0xFD
    r_a := 0
    r_x := 0
    r_y := 0
    status := CpuStatusRegister.U ||| CpuStatusRegister.I
    bus := bus
    controller := Controller.default }

/-- `Cpu::page_cross`. -/
def Cpu.page_cross (base absolute : Nat) : Bool :=
  (base &&& 0xFF00) != (absolute &&& 0xFF00)

/-- `Cpu::push` (write at `$0100 | sp`, then decrement `sp`, wrapping). -/
def Cpu.push (c : Cpu) (data : Nat) : Cpu :=
  let c := { c with bus := c.bus.write (0x100 ||| c.sp) data }
  { c with sp := (c.sp + 255) % 256 }

/-- `Cpu::push_u16` (`to_le_bytes`; high byte pushed first). -/
def Cpu.push_u16 (c : Cpu) (data : Nat) : Cpu :=
  let lo := data &&& 0xFF
  let hi := (data >>> 8) &&& 0xFF
  let c := c.push hi
  c.push lo

/-- `Cpu::pop` (increment `sp`, wrapping, then read at `$0100 | sp`). -/
def Cpu.pop (c : Cpu) : Nat × Cpu :=
  let c := { c with sp := (c.sp + 1) % 256 }
  let (v, bus) := c.bus.read (0x100 ||| c.sp)
  (v, { c with bus := bus })

/-- `Cpu::pop_u16` (low byte popped first). -/
def Cpu.pop_u16 (c : Cpu) : Nat × Cpu :=
  let (lo, c) := c.pop
  let (hi, c) := c.pop
  ((hi <<< 8) ||| lo, c)

/-- `Cpu::set_zn`. -/
def Cpu.set_zn (c : Cpu) (value : Nat) : Cpu :=
  let c := { c with status := setFlag c.status CpuStatusRegister.Z (value = 0) }
  { c with status := setFlag c.status CpuStatusRegister.N (value &&& 0x80 = 0x80) }

/-- `Cpu::branch`: sign-extend the relative operand, move `pc`, and return the
extra cycles. Note the source assigns `self.pc = absolute_address` *before*
`page_cross(self.pc, absolute_address)`, so the check compares the new `pc`
with itself. -/
def Cpu.branch (c : Cpu) (relative_address : Nat) : Nat × Cpu :=
  let absolute_address :=
    if relative_address &&& 0x80 = 0x80 then
      (c.pc + (relative_address ||| 0xFF00)) % 65536
    else
      (c.pc + relative_address) % 65536
  let c := { c with pc := absolute_address }
  if Cpu.page_cross c.pc absolute_address then
    (2, c)
  else
    (1, c)

-- # src/cpu/instructions.rs (decode types)

/-- `enum Operation` (the 56 official operations plus `UnknownOperation`). -/
inductive Operation where
  | BRK | ORA | ASL | PHP | BPL | CLC | JSR | AND | BIT | ROL | PLP | BMI | SEC | RTI
  | EOR | LSR | PHA | JMP | BVC | CLI | RTS | ADC | ROR | PLA | STA | STY | STX | DEY
  | TXA | BCC | INC | SBC | SEI | BVS | TYA | TXS | LDY | LDA | LDX | TAY | TAX | BCS
  | CLV | TSX | CPY | CMP | DEX | DEC | INY | BNE | CLD | CPX | INX | NOP | BEQ | SED
  | UnknownOperation
deriving DecidableEq

/-- `enum AddressingMode`. -/
inductive AddressingMode where
  | Implied
  | Immediate
  | ZeroPage
  | ZeroPageX
  | ZeroPageY
  | Relative
  | Absolute
  | AbsoluteX
  | AbsoluteY
  | Indirect
  | IndirectX
  | IndirectY
  | Accumulator
deriving DecidableEq

/-- `AddressingMode::offset`: operand byte count consumed after the opcode. -/
def AddressingMode.offset : AddressingMode → Nat
  | .Implied | .Accumulator => 0
  | .ZeroPage | .ZeroPageX | .ZeroPageY | .Indirect
  | .Immediate | .Relative | .IndirectX | .IndirectY => 1
  | _ => 2

/-- `struct Instruction`. -/
structure Instruction where
  operation : Operation
  address_mode : AddressingMode
  cycles : Nat

/-- `struct InstructionLoadData(Option<u16>, bool)`: resolved effective
address and the page-cross marker. -/
structure InstructionLoadData where
  addr : Option Nat
  cross : Bool

/-- `Cpu::write_fetched` (from `src/cpu/cpu.rs`). -/
def Cpu.write_fetched (c : Cpu) (address_mode : AddressingMode)
    (address : Option Nat) (value : Nat) : Cpu :=
  match address_mode with
  | .Implied | .Accumulator => { c with r_a := value }
  | .Immediate => c
  | _ => { c with bus := c.bus.write (address.getD 0) value }

/-- `Instruction::from_u8`: the opcode decode table (unlisted opcodes decode
to `NOP`, `Implied`, 0 cycles). -/
def Instruction.from_u8 (value : Nat) : Instruction :=
  match value with
  | 0x00 => ⟨.BRK, .Implied, 7⟩
  | 0x01 => ⟨.ORA, .IndirectX, 6⟩
  | 0x05 => ⟨.ORA, .ZeroPage, 3⟩
  | 0x06 => ⟨.ASL, .ZeroPage, 5⟩
  | 0x08 => ⟨.PHP, .Implied, 3⟩
  | 0x09 => ⟨.ORA, .Immediate, 2⟩
  | 0x0A => ⟨.ASL, .Accumulator, 2⟩
  | 0x0D => ⟨.ORA, .Absolute, 4⟩
  | 0x0E => ⟨.ASL, .Absolute, 6⟩
  | 0x10 => ⟨.BPL, .Relative, 2⟩
  | 0x11 => ⟨.ORA, .IndirectY, 5⟩
  | 0x15 => ⟨.ORA, .ZeroPageX, 4⟩
  | 0x16 => ⟨.ASL, .ZeroPageX, 6⟩
  | 0x18 => ⟨.CLC, .Implied, 2⟩
  | 0x19 => ⟨.ORA, .AbsoluteY, 4⟩
  | 0x1D => ⟨.ORA, .AbsoluteX, 4⟩
  | 0x1E => ⟨.ASL, .AbsoluteX, 7⟩
  | 0x20 => ⟨.JSR, .Absolute, 6⟩
  | 0x21 => ⟨.AND, .IndirectX, 6⟩
  | 0x24 => ⟨.BIT, .ZeroPage, 3⟩
  | 0x25 => ⟨.AND, .ZeroPage, 3⟩
  | 0x26 => ⟨.ROL, .ZeroPage, 5⟩
  | 0x28 => ⟨.PLP, .Implied, 4⟩
  | 0x29 => ⟨.AND, .Immediate, 2⟩
  | 0x2A => ⟨.ROL, .Accumulator, 2⟩
  | 0x2C => ⟨.BIT, .Absolute, 4⟩
  | 0x2D => ⟨.AND, .Absolute, 4⟩
  | 0x2E => ⟨.ROL, .Absolute, 6⟩
  | 0x30 => ⟨.BMI, .Relative, 2⟩
  | 0x31 => ⟨.AND, .IndirectY, 5⟩
  | 0x35 => ⟨.AND, .ZeroPageX, 4⟩
  | 0x36 => ⟨.ROL, .ZeroPageX, 6⟩
  | 0x38 => ⟨.SEC, .Implied, 2⟩
  | 0x39 => ⟨.AND, .AbsoluteY, 4⟩
  | 0x3D => ⟨.AND, .AbsoluteX, 4⟩
  | 0x3E => ⟨.ROL, .AbsoluteX, 7⟩
  | 0x40 => ⟨.RTI, .Implied, 6⟩
  | 0x41 => ⟨.EOR, .IndirectX, 6⟩
  | 0x45 => ⟨.EOR, .ZeroPage, 3⟩
  | 0x46 => ⟨.LSR, .ZeroPage, 5⟩
  | 0x48 => ⟨.PHA, .Implied, 3⟩
  | 0x49 => ⟨.EOR, .Immediate, 2⟩
  | 0x4A => ⟨.LSR, .Accumulator, 2⟩
  | 0x4C => ⟨.JMP, .Absolute, 3⟩
  | 0x4D => ⟨.EOR, .Absolute, 4⟩
  | 0x4E => ⟨.LSR, .Absolute, 6⟩
  | 0x50 => ⟨.BVC, .Relative, 2⟩
  | 0x51 => ⟨.EOR, .IndirectY, 5⟩
  | 0x55 => ⟨.EOR, .ZeroPageX, 4⟩
  | 0x56 => ⟨.LSR, .ZeroPageX, 6⟩
  | 0x58 => ⟨.CLI, .Implied, 2⟩
  | 0x59 => ⟨.EOR, .AbsoluteY, 4⟩
  | 0x5D => ⟨.EOR, .AbsoluteX, 4⟩
  | 0x5E => ⟨.LSR, .AbsoluteX, 7⟩
  | 0x60 => ⟨.RTS, .Implied, 6⟩
  | 0x61 => ⟨.ADC, .IndirectX, 6⟩
  | 0x65 => ⟨.ADC, .ZeroPage, 3⟩
  | 0x66 => ⟨.ROR, .ZeroPage, 5⟩
  | 0x68 => ⟨.PLA, .Implied, 4⟩
  | 0x69 => ⟨.ADC, .Immediate, 2⟩
  | 0x6A => ⟨.ROR, .Accumulator, 2⟩
  | 0x6C => ⟨.JMP, .Indirect, 5⟩
  | 0x6D => ⟨.ADC, .Absolute, 4⟩
  | 0x6E => ⟨.ROR, .Absolute, 6⟩
  | 0x70 => ⟨.BVS, .Relative, 2⟩
  | 0x71 => ⟨.ADC, .IndirectY, 5⟩
  | 0x75 => ⟨.ADC, .ZeroPageX, 4⟩
  | 0x76 => ⟨.ROR, .ZeroPageX, 6⟩
  | 0x78 => ⟨.SEI, .Implied, 2⟩
  | 0x79 => ⟨.ADC, .AbsoluteY, 4⟩
  | 0x7D => ⟨.ADC, .AbsoluteX, 4⟩
  | 0x7E => ⟨.ROR, .AbsoluteX, 7⟩
  | 0x81 => ⟨.STA, .IndirectX, 6⟩
  | 0x84 => ⟨.STY, .ZeroPage, 3⟩
  | 0x85 => ⟨.STA, .ZeroPage, 3⟩
  | 0x86 => ⟨.STX, .ZeroPage, 3⟩
  | 0x88 => ⟨.DEY, .Implied, 2⟩
  | 0x8A => ⟨.TXA, .Implied, 2⟩
  | 0x8C => ⟨.STY, .Absolute, 4⟩
  | 0x8D => ⟨.STA, .Absolute, 4⟩
  | 0x8E => ⟨.STX, .Absolute, 4⟩
  | 0x90 => ⟨.BCC, .Relative, 2⟩
  | 0x91 => ⟨.STA, .IndirectY, 6⟩
  | 0x94 => ⟨.STY, .ZeroPageX, 4⟩
  | 0x95 => ⟨.STA, .ZeroPageX, 4⟩
  | 0x96 => ⟨.STX, .ZeroPageY, 4⟩
  | 0x98 => ⟨.TYA, .Implied, 2⟩
  | 0x99 => ⟨.STA, .AbsoluteY, 5⟩
  | 0x9A => ⟨.TXS, .Implied, 2⟩
  | 0x9D => ⟨.STA, .AbsoluteX, 5⟩
  | 0xA0 => ⟨.LDY, .Immediate, 2⟩
  | 0xA1 => ⟨.LDA, .IndirectX, 6⟩
  | 0xA2 => ⟨.LDX, .Immediate, 2⟩
  | 0xA4 => ⟨.LDY, .ZeroPage, 3⟩
  | 0xA5 => ⟨.LDA, .ZeroPage, 3⟩
  | 0xA6 => ⟨.LDX, .ZeroPage, 3⟩
  | 0xA8 => ⟨.TAY, .Implied, 2⟩
  | 0xA9 => ⟨.LDA, .Immediate, 2⟩
  | 0xAA => ⟨.TAX, .Implied, 2⟩
  | 0xAC => ⟨.LDY, .Absolute, 4⟩
  | 0xAD => ⟨.LDA, .Absolute, 4⟩
  | 0xAE => ⟨.LDX, .Absolute, 4⟩
  | 0xB0 => ⟨.BCS, .Relative, 2⟩
  | 0xB1 => ⟨.LDA, .IndirectY, 5⟩
  | 0xB4 => ⟨.LDY, .ZeroPageX, 4⟩
  | 0xB5 => ⟨.LDA, .ZeroPageX, 4⟩
  | 0xB6 => ⟨.LDX, .ZeroPageY, 4⟩
  | 0xB8 => ⟨.CLV, .Implied, 2⟩
  | 0xB9 => ⟨.LDA, .AbsoluteY, 4⟩
  | 0xBA => ⟨.TSX, .Implied, 2⟩
  | 0xBC => ⟨.LDY, .AbsoluteX, 4⟩
  | 0xBD => ⟨.LDA, .AbsoluteX, 4⟩
  | 0xBE => ⟨.LDX, .AbsoluteY, 4⟩
  | 0xC0 => ⟨.CPY, .Immediate, 2⟩
  | 0xC1 => ⟨.CMP, .IndirectX, 6⟩
  | 0xC4 => ⟨.CPY, .ZeroPage, 3⟩
  | 0xC5 => ⟨.CMP, .ZeroPage, 3⟩
  | 0xC6 => ⟨.DEC, .ZeroPage, 5⟩
  | 0xC8 => ⟨.INY, .Implied, 2⟩
  | 0xC9 => ⟨.CMP, .Immediate, 2⟩
  | 0xCA => ⟨.DEX, .Implied, 2⟩
  | 0xCC => ⟨.CPY, .Absolute, 4⟩
  | 0xCD => ⟨.CMP, .Absolute, 4⟩
  | 0xCE => ⟨.DEC, .Absolute, 6⟩
  | 0xD0 => ⟨.BNE, .Relative, 2⟩
  | 0xD1 => ⟨.CMP, .IndirectY, 5⟩
  | 0xD5 => ⟨.CMP, .ZeroPageX, 4⟩
  | 0xD6 => ⟨.DEC, .ZeroPageX, 6⟩
  | 0xD8 => ⟨.CLD, .Implied, 2⟩
  | 0xD9 => ⟨.CMP, .AbsoluteY, 4⟩
  | 0xDD => ⟨.CMP, .AbsoluteX, 4⟩
  | 0xDE => ⟨.DEC, .AbsoluteX, 7⟩
  | 0xE0 => ⟨.CPX, .Immediate, 2⟩
  | 0xE1 => ⟨.SBC, .IndirectX, 6⟩
  | 0xE4 => ⟨.CPX, .ZeroPage, 3⟩
  | 0xE5 => ⟨.SBC, .ZeroPage, 3⟩
  | 0xE6 => ⟨.INC, .ZeroPage, 5⟩
  | 0xE8 => ⟨.INX, .Implied, 2⟩
  | 0xE9 => ⟨.SBC, .Immediate, 2⟩
  | 0xEA => ⟨.NOP, .Implied, 2⟩
  | 0xEC => ⟨.CPX, .Absolute, 4⟩
  | 0xED => ⟨.SBC, .Absolute, 4⟩
  | 0xEE => ⟨.INC, .Absolute, 6⟩
  | 0xF0 => ⟨.BEQ, .Relative, 2⟩
  | 0xF1 => ⟨.SBC, .IndirectY, 5⟩
  | 0xF5 => ⟨.SBC, .ZeroPageX, 4⟩
  | 0xF6 => ⟨.INC, .ZeroPageX, 6⟩
  | 0xF8 => ⟨.SED, .Implied, 2⟩
  | 0xF9 => ⟨.SBC, .AbsoluteY, 4⟩
  | 0xFD => ⟨.SBC, .AbsoluteX, 4⟩
  | 0xFE => ⟨.INC, .AbsoluteX, 7⟩
  | _ => ⟨.NOP, .Implied, 0⟩

-- # src/cpu/instructions.rs (addressing resolution and execution)

/-- `Cpu::load_instruction_address`: resolve the addressing mode to an
effective address and the page-cross marker. -/
def Cpu.load_instruction_address (c : Cpu) (address_mode : AddressingMode) :
    InstructionLoadData × Cpu :=
  match address_mode with
  | .Immediate => (⟨some c.pc, false⟩, c)
  | .ZeroPage =>
    let (v, bus) := c.bus.read c.pc
    (⟨some v, false⟩, { c with bus := bus })
  | .ZeroPageX =>
    let (v, bus) := c.bus.read c.pc
    (⟨some ((v + c.r_x) % 256), false⟩, { c with bus := bus })
  | .ZeroPageY =>
    let (v, bus) := c.bus.read c.pc
    (⟨some ((v + c.r_y) % 256), false⟩, { c with bus := bus })
  | .Relative =>
    let (v, bus) := c.bus.read c.pc
    (⟨some v, false⟩, { c with bus := bus })
  | .Absolute =>
    let (address, bus) := c.bus.read_u16 c.pc
    (⟨some address, false⟩, { c with bus := bus })
  | .AbsoluteX =>
    let (base_address, bus) := c.bus.read_u16 c.pc
    let c := { c with bus := bus }
    let absolute_address := (base_address + c.r_x) % 65536
    (⟨some absolute_address, Cpu.page_cross base_address absolute_address⟩, c)
  | .AbsoluteY =>
    let (base_address, bus) := c.bus.read_u16 c.pc
    let c := { c with bus := bus }
    let absolute_address := (base_address + c.r_y) % 65536
    (⟨some absolute_address, Cpu.page_cross base_address absolute_address⟩, c)
  | .Indirect =>
    let (address, bus) := c.bus.read_u16 c.pc
    let c := { c with bus := bus }
    if address &&& 0xFF = 0xFF then
      -- the JMP-indirect page-wrap bug: high byte from `address & 0xFF00`
      let (lo, bus) := c.bus.read address
      let c := { c with bus := bus }
      let (hi, bus) := c.bus.read (address &&& 0xFF00)
      let c := { c with bus := bus }
      (⟨some ((hi <<< 8) ||| lo), false⟩, c)
    else
      let (v, bus) := c.bus.read_u16 address
      (⟨some v, false⟩, { c with bus := bus })
  | .IndirectX =>
    let (v, bus) := c.bus.read c.pc
    let c := { c with bus := bus }
    let address := (v + c.r_x) % 256
    let (absolute_address, bus) := c.bus.read_u16_zp address
    (⟨some absolute_address, false⟩, { c with bus := bus })
  | .IndirectY =>
    let (v, bus) := c.bus.read c.pc
    let c := { c with bus := bus }
    let (relative_address, bus) := c.bus.read_u16_zp v
    let c := { c with bus := bus }
    let absolute_address := (relative_address + c.r_y) % 65536
    (⟨some absolute_address, Cpu.page_cross relative_address absolute_address⟩, c)
  | _ => (⟨none, false⟩, c)

/-- `Cpu::load_instruction_data`: fetch the operand value (stores skip the
memory read and yield 0). -/
def Cpu.load_instruction_data (c : Cpu) (address_mode : AddressingMode)
    (instruction : Instruction) (address : Option Nat) : Nat × Cpu :=
  match address_mode with
  | .Implied | .Relative => (0, c)
  | .Immediate =>
    let (v, bus) := c.bus.read c.pc
    (v, { c with bus := bus })
  | .Accumulator => (c.r_a, c)
  | _ =>
    match instruction.operation with
    | .STA | .STX | .STY => (0, c)
    | _ =>
      let (v, bus) := c.bus.read (address.getD 0)
      (v, { c with bus := bus })

/-- `Cpu::compare` (shared by `CMP`/`CPX`/`CPY`). -/
def Cpu.compare (c : Cpu) (lhs rhs : Nat) : Cpu :=
  let value := (lhs + 256 - rhs) % 256
  let c := c.set_zn value
  { c with status := setFlag c.status CpuStatusRegister.C (lhs ≥ rhs) }

/-- `Cpu::execute_instruction`: advance `pc` past the opcode, resolve the
operand, account base + page-cross cycles, then run the operation. Returns
`(cycles, cpu)`. -/
def Cpu.execute_instruction (c : Cpu) (instruction : Instruction) : Nat × Cpu :=
  let c := { c with pc := (c.pc + 1) % 65536 }
  let (ld, c) := c.load_instruction_address instruction.address_mode
  let (instruction_data, c) :=
    c.load_instruction_data instruction.address_mode instruction ld.addr
  let c := { c with pc := (c.pc + instruction.address_mode.offset) % 65536 }
  let cycles := instruction.cycles +
    (if instruction.operation = .STA ∨ instruction.operation = .STX
        ∨ instruction.operation = .STY then 0
     else if ld.cross then 1 else 0)
  match instruction.operation with
  | .ADC =>
    let sum := c.r_a + instruction_data
      + (if testFlag c.status CpuStatusRegister.C then 1 else 0)
    let c := { c with status := setFlag c.status CpuStatusRegister.C (sum > 0xFF) }
    let c := { c with status := setFlag c.status CpuStatusRegister.Z (sum &&& 0xFF = 0) }
    let c := { c with status := (setFlag c.status CpuStatusRegister.V
        (((0xFFFF ^^^ (c.r_a ^^^ instruction_data)) &&& (c.r_a ^^^ sum) &&& 0x0080) ≠ 0)) }
    let c := { c with status := setFlag c.status CpuStatusRegister.N (sum &&& 0x80 ≠ 0) }
    (cycles, { c with r_a := sum &&& 0xFF })
  | .AND =>
    let c := { c with r_a := c.r_a &&& instruction_data }
    (cycles, c.set_zn c.r_a)
  | .ASL =>
    let c := { c with status :=
        (setFlag c.status CpuStatusRegister.C ((instruction_data >>> 7) &&& 1 ≠ 0)) }
    let value := (instruction_data <<< 1) % 256
    let c := c.set_zn value
    (cycles, c.write_fetched instruction.address_mode ld.addr value)
  | .BCC =>
    if !testFlag c.status CpuStatusRegister.C then
      let (extra, c) := c.branch (ld.addr.getD 0)
      (cycles + extra, c)
    else (cycles, c)
  | .BCS =>
    if testFlag c.status CpuStatusRegister.C then
      let (extra, c) := c.branch (ld.addr.getD 0)
      (cycles + extra, c)
    else (cycles, c)
  | .BEQ =>
    if testFlag c.status CpuStatusRegister.Z then
      let (extra, c) := c.branch (ld.addr.getD 0)
      (cycles + extra, c)
    else (cycles, c)
  | .BIT =>
    let value := c.r_a &&& instruction_data
    let c := { c with status := setFlag c.status CpuStatusRegister.Z (value = 0) }
    let c := { c with status :=
        (setFlag c.status CpuStatusRegister.N (instruction_data &&& (1 <<< 7) ≠ 0)) }
    let c := { c with status :=
        (setFlag c.status CpuStatusRegister.V (instruction_data &&& (1 <<< 6) ≠ 0)) }
    (cycles, c)
  | .BMI =>
    if testFlag c.status CpuStatusRegister.N then
      let (extra, c) := c.branch (ld.addr.getD 0)
      (cycles + extra, c)
    else (cycles, c)
  | .BNE =>
    if !testFlag c.status CpuStatusRegister.Z then
      let (extra, c) := c.branch (ld.addr.getD 0)
      (cycles + extra, c)
    else (cycles, c)
  | .BPL =>
    if !testFlag c.status CpuStatusRegister.N then
      let (extra, c) := c.branch (ld.addr.getD 0)
      (cycles + extra, c)
    else (cycles, c)
  | .BRK =>
    let c := c.push_u16 c.pc
    let status := c.status ||| CpuStatusRegister.U ||| CpuStatusRegister.B
    let c := c.push status
    let c := { c with status := setFlag c.status CpuStatusRegister.I true }
    let (v, bus) := c.bus.read_u16 0xFFFE
    (cycles, { c with pc := v, bus := bus })
  | .BVC =>
    if !testFlag c.status CpuStatusRegister.V then
      let (extra, c) := c.branch (ld.addr.getD 0)
      (cycles + extra, c)
    else (cycles, c)
  | .BVS =>
    if testFlag c.status CpuStatusRegister.V then
      let (extra, c) := c.branch (ld.addr.getD 0)
      (cycles + extra, c)
    else (cycles, c)
  | .CLC => (cycles, { c with status := setFlag c.status CpuStatusRegister.C false })
  | .CLD => (cycles, { c with status := setFlag c.status CpuStatusRegister.D false })
  | .CLI => (cycles, { c with status := setFlag c.status CpuStatusRegister.I false })
  | .CLV => (cycles, { c with status := setFlag c.status CpuStatusRegister.V false })
  | .CMP => (cycles, c.compare c.r_a instruction_data)
  | .CPX => (cycles, c.compare c.r_x instruction_data)
  | .CPY => (cycles, c.compare c.r_y instruction_data)
  | .DEC =>
    let value := (instruction_data + 255) % 256
    let c := c.write_fetched instruction.address_mode ld.addr value
    (cycles, c.set_zn value)
  | .DEX =>
    let value := (c.r_x + 255) % 256
    let c := { c with r_x := value }
    (cycles, c.set_zn value)
  | .DEY =>
    let value := (c.r_y + 255) % 256
    let c := { c with r_y := value }
    (cycles, c.set_zn value)
  | .EOR =>
    let c := { c with r_a := c.r_a ^^^ instruction_data }
    (cycles, c.set_zn c.r_a)
  | .INC =>
    let value := (instruction_data + 1) % 256
    let c := c.write_fetched instruction.address_mode ld.addr value
    (cycles, c.set_zn value)
  | .INX =>
    let value := (c.r_x + 1) % 256
    let c := { c with r_x := value }
    (cycles, c.set_zn value)
  | .INY =>
    let value := (c.r_y + 1) % 256
    let c := { c with r_y := value }
    (cycles, c.set_zn value)
  | .JMP => (cycles, { c with pc := ld.addr.getD 0 })
  | .JSR =>
    let c := c.push_u16 ((c.pc + 65535) % 65536)
    (cycles, { c with pc := ld.addr.getD 0 })
  | .LDA =>
    let c := { c with r_a := instruction_data }
    (cycles, c.set_zn c.r_a)
  | .LDX =>
    let c := { c with r_x := instruction_data }
    (cycles, c.set_zn c.r_x)
  | .LDY =>
    let c := { c with r_y := instruction_data }
    (cycles, c.set_zn c.r_y)
  | .LSR =>
    let c := { c with status := setFlag c.status CpuStatusRegister.C (instruction_data &&& 1 = 1) }
    let value := instruction_data >>> 1
    let c := c.write_fetched instruction.address_mode ld.addr value
    (cycles, c.set_zn value)
  | .NOP => (cycles, c)
  | .ORA =>
    let c := { c with r_a := c.r_a ||| instruction_data }
    (cycles, c.set_zn c.r_a)
  | .PHA => (cycles, c.push c.r_a)
  | .PHP =>
    (cycles, c.push (c.status ||| CpuStatusRegister.U ||| CpuStatusRegister.B))
  | .PLA =>
    let (v, c) := c.pop
    let c := { c with r_a := v }
    (cycles, c.set_zn c.r_a)
  | .PLP =>
    let (v, c) := c.pop
    let c := { c with status := v &&& 0xFF }
    let c := { c with status := setFlag c.status CpuStatusRegister.B false }
    (cycles, { c with status := setFlag c.status CpuStatusRegister.U true })
  | .ROL =>
    let cbit := c.status &&& CpuStatusRegister.C
    let c := { c with status :=
        (setFlag c.status CpuStatusRegister.C ((instruction_data >>> 7) &&& 1 ≠ 0)) }
    let value := ((instruction_data <<< 1) % 256) ||| cbit
    let c := c.set_zn value
    (cycles, c.write_fetched instruction.address_mode ld.addr value)
  | .ROR =>
    let rot := (instruction_data >>> 1) ||| ((instruction_data &&& 1) <<< 7)
    let value :=
      if testFlag c.status CpuStatusRegister.C then rot ||| (1 <<< 7)
      else rot &&& (0xFF ^^^ (1 <<< 7))
    let c := { c with status := setFlag c.status CpuStatusRegister.C (instruction_data &&& 1 ≠ 0) }
    let c := c.set_zn value
    (cycles, c.write_fetched instruction.address_mode ld.addr value)
  | .RTI =>
    let (v, c) := c.pop
    let c := { c with status :=
        (((v &&& 0xFF) &&& (0xFF ^^^ CpuStatusRegister.B)) ||| CpuStatusRegister.U) }
    let (v, c) := c.pop_u16
    (cycles, { c with pc := v })
  | .RTS =>
    let (v, c) := c.pop_u16
    (cycles, { c with pc := (v + 1) % 65536 })
  | .SBC =>
    let inverted := instruction_data ^^^ 0x00FF
    let difference := c.r_a + inverted
      + (if testFlag c.status CpuStatusRegister.C then 1 else 0)
    let c := { c with status := setFlag c.status CpuStatusRegister.C (difference &&& 0xFF00 ≠ 0) }
    let c := { c with status := setFlag c.status CpuStatusRegister.Z (difference &&& 0xFF = 0) }
    let c := { c with status := (setFlag c.status CpuStatusRegister.V
        (((difference ^^^ c.r_a) &&& (difference ^^^ inverted) &&& 0x0080) ≠ 0)) }
    let c := { c with status := setFlag c.status CpuStatusRegister.N (difference &&& 0x80 ≠ 0) }
    (cycles, { c with r_a := difference &&& 0xFF })
  | .SEC => (cycles, { c with status := setFlag c.status CpuStatusRegister.C true })
  | .SED => (cycles, { c with status := setFlag c.status CpuStatusRegister.D true })
  | .SEI => (cycles, { c with status := setFlag c.status CpuStatusRegister.I true })
  | .STA => (cycles, { c with bus := c.bus.write (ld.addr.getD 0) c.r_a })
  | .STX => (cycles, { c with bus := c.bus.write (ld.addr.getD 0) c.r_x })
  | .STY => (cycles, { c with bus := c.bus.write (ld.addr.getD 0) c.r_y })
  | .TAX =>
    let c := { c with r_x := c.r_a }
    (cycles, c.set_zn c.r_x)
  | .TAY =>
    let c := { c with r_y := c.r_a }
    (cycles, c.set_zn c.r_y)
  | .TSX =>
    let c := { c with r_x := c.sp }
    (cycles, c.set_zn c.r_x)
  | .TXA =>
    let c := { c with r_a := c.r_x }
    (cycles, c.set_zn c.r_a)
  | .TXS => (cycles, { c with sp := c.r_x })
  | .TYA =>
    let c := { c with r_a := c.r_y }
    (cycles, c.set_zn c.r_a)
  -- the source panics here; `Instruction::from_u8` never yields this operation
  | .UnknownOperation => (cycles, c)

/-- `Cpu::step`: fetch, decode, execute, add the cycles. The host `inject`
callback is a no-op in the embedding (it only touches host state). -/
def Cpu.step (c : Cpu) : Cpu :=
  let c :=
    if !c.controller.pause then
      let (opcode, bus) := c.bus.read c.pc
      let c := { c with bus := bus }
      let instruction := Instruction.from_u8 opcode
      let (cycles, c) := c.execute_instruction instruction
      { c with cycle := c.cycle + cycles }
    else c
  if c.controller.step_mode then
    { c with controller := { c.controller with pause := true } }
  else c

-- # Concrete states used by the claim checks

/-- A cartridge with empty PRG and an 8 KiB CHR pattern `i % 256`. -/
def dummyCartridge : Cartridge :=
  { prg_rom := ⟨fun _ => 0, 0⟩
    chr_rom := ⟨fun i => i % 256, 8192⟩
    mapper := 0
    mirroring := Mirroring.Vertical }

/-- A CPU at `pc = 0`, `cycle = 100`, executing code out of RAM. -/
def mkTestCpu (ram : Nat → Nat) : Cpu :=
  { cycle := 100
    pc := 0
    sp := 0xFD
    r_a := 0
    r_x := 0
    r_y := 0
    status := CpuStatusRegister.U ||| CpuStatusRegister.I
    bus := { ram := ram
             cartridge := dummyCartridge
             ppu := Ppu.new dummyCartridge.chr_rom Mirroring.Vertical }
    controller := Controller.default }

/-- RAM holding `LDA #$42` at address 0. -/
def ldaImmRam : Nat → Nat :=
  fun a => if a = 0 then 0xA9 else if a = 1 then 0x42 else 0

/-- CPU about to execute `LDA #$42` while the PPU holds a latched NMI. -/
def nmiLatchedCpu : Cpu :=
  let c := mkTestCpu ldaImmRam
  { c with bus := { c.bus with ppu := { c.bus.ppu with nmi_interrupt := some 1 } } }

/-- CPU about to execute `LDA #$42` with the PPU clock at `cycle = 7`. -/
def ppuClockCpu : Cpu :=
  let c := mkTestCpu ldaImmRam
  { c with bus := { c.bus with ppu := { c.bus.ppu with cycle := 7 } } }

/-- CPU at `pc = $00F0` about to execute `BNE +$20` (opcode `D0 20`) with `Z`
clear: the taken branch moves `pc` from page `$00` to `$0112` on page `$01`. -/
def branchCpu : Cpu :=
  { mkTestCpu (fun a => if a = 0xF0 then 0xD0 else if a = 0xF1 then 0x20 else 0) with
    pc := 0xF0 }

/-- PPU whose address register holds `$0200` (one past `CHR_ROM_END`) with a
nonzero `data_buffer`. -/
def chrReadPpu : Ppu :=
  { Ppu.new dummyCartridge.chr_rom Mirroring.Vertical with
    addr := ⟨0x02, 0x00, true⟩
    data_buffer := 0x55 }

/-- PPU whose address register holds `$01FF` (the last buffered CHR address)
with a nonzero `data_buffer`. -/
def chrBoundaryPpu : Ppu :=
  { Ppu.new dummyCartridge.chr_rom Mirroring.Vertical with
    addr := ⟨0x01, 0xFF, true⟩
    data_buffer := 0x55 }

/-- CPU about to execute `STA $4014` (opcode `8D 14 40`) with `A = $03`,
`oam_addr = 10`, and RAM holding the pattern `(a + 1) % 256`; the DMA source
page is `$0300` in RAM, so the copied byte `i` is `(i + 1) % 256`. -/
def dmaCpu : Cpu :=
  let c := mkTestCpu (fun a =>
    if a = 0 then 0x8D else if a = 1 then 0x14 else if a = 2 then 0x40
    else (a + 1) % 256)
  let c := { c with r_a := 3 }
  { c with bus := { c.bus with ppu := { c.bus.ppu with oam_addr := 10 } } }

/-- An iNES image with the trainer bit set (`byte6 = $04`), one PRG page,
no CHR, byte `$AA` at file offset 16 and byte `$BB` at file offset `16 + 512`.
Total length `16 + 512 + 16384`, enough for either PRG placement. -/
def trainerImage : ByteVec :=
  ⟨fun i =>
    if i = 0 then 0x4E else if i = 1 then 0x45 else if i = 2 then 0x53
    else if i = 3 then 0x1A else if i = 4 then 1 else if i = 6 then 0x04
    else if i = 16 then 0xAA else if i = 528 then 0xBB else 0,
   16912⟩

/-- First PRG ROM byte of a successful load. -/
def LoadResult.prg_first : LoadResult → Option Nat
  | .ok c => some (c.prg_rom.data 0)
  | _ => none

/-- CPU about to execute `ASL $12F0,X` (opcode `1E F0 12`) with `X = $20`:
the effective address `$1310` is on a different page than the base `$12F0`.
RAM reads `$41` at the target. -/
def rmwCrossCpu : Cpu :=
  { mkTestCpu (fun a =>
      if a = 0 then 0x1E else if a = 1 then 0xF0 else if a = 2 then 0x12
      else 0x41) with
    r_x := 0x20 }

/-- CPU about to execute `LDA $12F0,X` (opcode `BD F0 12`) with `X = $20`:
the same page-crossing effective address, as a pure read. -/
def readCrossCpu : Cpu :=
  { mkTestCpu (fun a =>
      if a = 0 then 0xBD else if a = 1 then 0xF0 else if a = 2 then 0x12
      else 0x37) with
    r_x := 0x20 }

/-- A 16-byte iNES image: valid magic, `byte4 = 1` (one 16 KiB PRG page
declared), but no PRG data follows the header. -/
def truncatedImage : ByteVec :=
  ⟨fun i =>
    if i = 0 then 0x4E else if i = 1 then 0x45 else if i = 2 then 0x53
    else if i = 3 then 0x1A else if i = 4 then 1 else 0,
   16⟩

/-- A 4-byte input whose magic bytes are wrong. -/
def badMagicImage : ByteVec :=
  ⟨fun _ => 0, 4⟩

/-- PPU one tick before the VBlank scanline: `cycle = 340`, `scanline = 240`. -/
def vblankEdgePpu : Ppu :=
  { Ppu.new dummyCartridge.chr_rom Mirroring.Vertical with
    cycle := 340
    scanline := 240 }

-- # Helper lemmas on bit flags

/-- Clearing a single-bit flag makes its test read false (for any mask whose
bits vanish under the 8-bit complement, which holds for every 8-bit mask). -/
theorem testFlag_setFlag_self_false (s m : Nat) (h : (0xFF ^^^ m) &&& m = 0) :
    testFlag (setFlag s m false) m = false := by
  simp only [setFlag, if_neg (Bool.false_ne_true), testFlag]
  rw [Nat.land_assoc, h]
  simp

/-- Setting a single-bit flag makes its test read true. -/
theorem testFlag_setFlag_self_true (s m k : Nat) (hm : m = 1 <<< k) :
    testFlag (setFlag s m true) m = true := by
  subst hm
  have hbit : ((s ||| 1 <<< k) &&& 1 <<< k).testBit k = true := by
    simp [Nat.testBit_land, Nat.testBit_lor]
  simp only [setFlag, testFlag, if_true, bne_iff_ne, ne_eq]
  intro hzero
  rw [hzero] at hbit
  simp at hbit

/-- `SPRITE_ZERO_HIT` reads false after being cleared. -/
theorem testFlag_szh_clear (s : Nat) :
    testFlag (setFlag s StatusRegister.SPRITE_ZERO_HIT false) StatusRegister.SPRITE_ZERO_HIT
      = false :=
  testFlag_setFlag_self_false s _ (by decide)

/-- `SPRITE_ZERO_HIT` reads true after being set. -/
theorem testFlag_szh_set (s : Nat) :
    testFlag (setFlag s StatusRegister.SPRITE_ZERO_HIT true) StatusRegister.SPRITE_ZERO_HIT
      = true :=
  testFlag_setFlag_self_true s _ 6 (by decide)

-- # Preservation lemmas: the PPU clock and a latched NMI across the CPU step
--
-- Two facts are proved for every reachable call in the `Cpu::step` call
-- graph: (a) no function it invokes ever changes `ppu.cycle`/`ppu.scanline`
-- (`Ppu::step` is the only mutator of those fields and is never called), and
-- (b) a latched `nmi_interrupt` is never taken away (`Ppu::poll_nmi_status`
-- and the frame wrap in `Ppu::step` are the only consumers and are never
-- called; `Ppu::write_ctrl` can only add a latch).
theorem ppu_write_addr_clock (p : Ppu) (v : Nat) :
    (p.write_addr v).cycle = p.cycle ∧ (p.write_addr v).scanline = p.scanline := ⟨rfl, rfl⟩

theorem ppu_write_ctrl_clock (p : Ppu) (v : Nat) :
    (p.write_ctrl v).cycle = p.cycle ∧ (p.write_ctrl v).scanline = p.scanline := by
  unfold Ppu.write_ctrl
  dsimp only
  split <;> exact ⟨rfl, rfl⟩

theorem ppu_read_data_clock (p : Ppu) :
    (p.read_data).2.cycle = p.cycle ∧ (p.read_data).2.scanline = p.scanline := by
  unfold Ppu.read_data
  dsimp only
  repeat' split
  all_goals exact ⟨rfl, rfl⟩

theorem ppu_write_data_clock (p : Ppu) (v : Nat) :
    (p.write_data v).cycle = p.cycle ∧ (p.write_data v).scanline = p.scanline := by
  unfold Ppu.write_data
  dsimp only
  repeat' split
  all_goals exact ⟨rfl, rfl⟩

theorem ppu_write_oam_dma_clock (p : Ppu) (d : List Nat) :
    (p.write_oam_dma d).cycle = p.cycle ∧ (p.write_oam_dma d).scanline = p.scanline := by
  unfold Ppu.write_oam_dma
  induction d generalizing p with
  | nil => exact ⟨rfl, rfl⟩
  | cons x xs ih => exact ih (p.write_oam_data x)

theorem ppu_read_status_clock (p : Ppu) :
    (p.read_status).2.cycle = p.cycle ∧ (p.read_status).2.scanline = p.scanline := ⟨rfl, rfl⟩

theorem bus_read_clock (b : Bus) (a : Nat) :
    (b.read a).2.ppu.cycle = b.ppu.cycle ∧ (b.read a).2.ppu.scanline = b.ppu.scanline := by
  unfold Bus.read
  dsimp only
  repeat' split
  all_goals simp [ppu_read_data_clock, ppu_read_status_clock]

theorem bus_read_u16_clock (b : Bus) (a : Nat) :
    (b.read_u16 a).2.ppu.cycle = b.ppu.cycle ∧
    (b.read_u16 a).2.ppu.scanline = b.ppu.scanline := by
  unfold Bus.read_u16
  dsimp only
  simp [bus_read_clock]

theorem bus_read_u16_zp_clock (b : Bus) (a : Nat) :
    (b.read_u16_zp a).2.ppu.cycle = b.ppu.cycle ∧
    (b.read_u16_zp a).2.ppu.scanline = b.ppu.scanline := by
  unfold Bus.read_u16_zp
  dsimp only
  simp [bus_read_clock]

theorem bus_dma_fill_clock (hi : Nat) : ∀ (fuel i : Nat) (b : Bus),
    (Bus.dma_fill b hi i fuel).2.ppu.cycle = b.ppu.cycle ∧
    (Bus.dma_fill b hi i fuel).2.ppu.scanline = b.ppu.scanline := by
  intro fuel
  induction fuel with
  | zero => intro i b; exact ⟨rfl, rfl⟩
  | succ n ih =>
    intro i b
    unfold Bus.dma_fill
    dsimp only
    constructor
    · rw [(ih (i + 1) (b.read (hi + i)).2).1, (bus_read_clock b (hi + i)).1]
    · rw [(ih (i + 1) (b.read (hi + i)).2).2, (bus_read_clock b (hi + i)).2]

theorem bus_write_clock (b : Bus) (a v : Nat) :
    (b.write a v).ppu.cycle = b.ppu.cycle ∧
    (b.write a v).ppu.scanline = b.ppu.scanline := by
  unfold Bus.write
  dsimp only
  repeat' split
  all_goals
    simp [ppu_write_addr_clock, ppu_write_ctrl_clock, ppu_write_data_clock,
      ppu_write_oam_dma_clock, bus_dma_fill_clock, Ppu.write_mask, Ppu.write_oam_addr,
      Ppu.write_oam_data, Ppu.write_scroll]

theorem cpu_push_clock (c : Cpu) (d : Nat) :
    (c.push d).bus.ppu.cycle = c.bus.ppu.cycle ∧
    (c.push d).bus.ppu.scanline = c.bus.ppu.scanline := by
  unfold Cpu.push
  dsimp only
  simp [bus_write_clock]

theorem cpu_push_u16_clock (c : Cpu) (d : Nat) :
    (c.push_u16 d).bus.ppu.cycle = c.bus.ppu.cycle ∧
    (c.push_u16 d).bus.ppu.scanline = c.bus.ppu.scanline := by
  unfold Cpu.push_u16
  dsimp only
  simp [cpu_push_clock]

theorem cpu_pop_clock (c : Cpu) :
    (c.pop).2.bus.ppu.cycle = c.bus.ppu.cycle ∧
    (c.pop).2.bus.ppu.scanline = c.bus.ppu.scanline := by
  unfold Cpu.pop
  dsimp only
  simp [bus_read_clock]

theorem cpu_pop_u16_clock (c : Cpu) :
    (c.pop_u16).2.bus.ppu.cycle = c.bus.ppu.cycle ∧
    (c.pop_u16).2.bus.ppu.scanline = c.bus.ppu.scanline := by
  unfold Cpu.pop_u16
  dsimp only
  simp [cpu_pop_clock]

theorem cpu_set_zn_clock (c : Cpu) (v : Nat) :
    (c.set_zn v).bus.ppu.cycle = c.bus.ppu.cycle ∧
    (c.set_zn v).bus.ppu.scanline = c.bus.ppu.scanline := ⟨rfl, rfl⟩

theorem cpu_compare_clock (c : Cpu) (l r : Nat) :
    (c.compare l r).bus.ppu.cycle = c.bus.ppu.cycle ∧
    (c.compare l r).bus.ppu.scanline = c.bus.ppu.scanline := ⟨rfl, rfl⟩

theorem cpu_write_fetched_clock (c : Cpu) (m : AddressingMode) (a : Option Nat) (v : Nat) :
    (c.write_fetched m a v).bus.ppu.cycle = c.bus.ppu.cycle ∧
    (c.write_fetched m a v).bus.ppu.scanline = c.bus.ppu.scanline := by
  unfold Cpu.write_fetched
  repeat' split
  all_goals simp [bus_write_clock]

theorem cpu_branch_clock (c : Cpu) (r : Nat) :
    (c.branch r).2.bus.ppu.cycle = c.bus.ppu.cycle ∧
    (c.branch r).2.bus.ppu.scanline = c.bus.ppu.scanline := by
  unfold Cpu.branch
  dsimp only
  repeat' split
  all_goals exact ⟨rfl, rfl⟩

theorem cpu_load_instruction_address_clock (c : Cpu) (m : AddressingMode) :
    (c.load_instruction_address m).2.bus.ppu.cycle = c.bus.ppu.cycle ∧
    (c.load_instruction_address m).2.bus.ppu.scanline = c.bus.ppu.scanline := by
  unfold Cpu.load_instruction_address
  cases m <;> dsimp only <;> repeat' split
  all_goals simp [bus_read_clock, bus_read_u16_clock, bus_read_u16_zp_clock]

theorem cpu_load_instruction_data_clock (c : Cpu) (m : AddressingMode)
    (i : Instruction) (a : Option Nat) :
    (c.load_instruction_data m i a).2.bus.ppu.cycle = c.bus.ppu.cycle ∧
    (c.load_instruction_data m i a).2.bus.ppu.scanline = c.bus.ppu.scanline := by
  unfold Cpu.load_instruction_data
  dsimp only
  repeat' split
  all_goals simp [bus_read_clock]

theorem cpu_execute_clock (c : Cpu) (i : Instruction) :
    (c.execute_instruction i).2.bus.ppu.cycle = c.bus.ppu.cycle ∧
    (c.execute_instruction i).2.bus.ppu.scanline = c.bus.ppu.scanline := by
  unfold Cpu.execute_instruction
  dsimp only
  repeat' split
  all_goals simp [cpu_push_clock, cpu_push_u16_clock, cpu_pop_clock, cpu_pop_u16_clock,
    cpu_set_zn_clock, cpu_compare_clock, cpu_write_fetched_clock, cpu_branch_clock,
    cpu_load_instruction_address_clock, cpu_load_instruction_data_clock,
    bus_read_clock, bus_read_u16_clock, bus_write_clock]

theorem cpu_step_clock (c : Cpu) :
    (Cpu.step c).bus.ppu.cycle = c.bus.ppu.cycle ∧
    (Cpu.step c).bus.ppu.scanline = c.bus.ppu.scanline := by
  unfold Cpu.step
  dsimp only
  repeat' split
  all_goals simp [cpu_execute_clock, bus_read_clock]

theorem ppu_write_ctrl_nmi (p : Ppu) (v : Nat)
    (h : p.nmi_interrupt.isSome = true) :
    (p.write_ctrl v).nmi_interrupt.isSome = true := by
  unfold Ppu.write_ctrl
  dsimp only
  split
  · rfl
  · exact h

theorem ppu_read_status_nmi (p : Ppu) :
    (p.read_status).2.nmi_interrupt = p.nmi_interrupt := rfl

theorem ppu_read_data_nmi (p : Ppu) :
    (p.read_data).2.nmi_interrupt = p.nmi_interrupt := by
  unfold Ppu.read_data
  dsimp only
  repeat' split
  all_goals rfl

theorem ppu_write_data_nmi (p : Ppu) (v : Nat) :
    (p.write_data v).nmi_interrupt = p.nmi_interrupt := by
  unfold Ppu.write_data
  dsimp only
  repeat' split
  all_goals rfl

theorem ppu_write_oam_dma_nmi (p : Ppu) (d : List Nat) :
    (p.write_oam_dma d).nmi_interrupt = p.nmi_interrupt := by
  unfold Ppu.write_oam_dma
  induction d generalizing p with
  | nil => rfl
  | cons x xs ih => exact ih (p.write_oam_data x)

theorem bus_read_nmi (b : Bus) (a : Nat) :
    (b.read a).2.ppu.nmi_interrupt = b.ppu.nmi_interrupt := by
  unfold Bus.read
  dsimp only
  repeat' split
  all_goals simp [ppu_read_status_nmi, ppu_read_data_nmi]

theorem bus_read_u16_nmi (b : Bus) (a : Nat) :
    (b.read_u16 a).2.ppu.nmi_interrupt = b.ppu.nmi_interrupt := by
  unfold Bus.read_u16
  dsimp only
  simp [bus_read_nmi]

theorem bus_read_u16_zp_nmi (b : Bus) (a : Nat) :
    (b.read_u16_zp a).2.ppu.nmi_interrupt = b.ppu.nmi_interrupt := by
  unfold Bus.read_u16_zp
  dsimp only
  simp [bus_read_nmi]

theorem bus_dma_fill_nmi (hi : Nat) : ∀ (fuel i : Nat) (b : Bus),
    (Bus.dma_fill b hi i fuel).2.ppu.nmi_interrupt = b.ppu.nmi_interrupt := by
  intro fuel
  induction fuel with
  | zero => intro i b; rfl
  | succ n ih =>
    intro i b
    unfold Bus.dma_fill
    dsimp only
    rw [ih (i + 1) (b.read (hi + i)).2, bus_read_nmi]

theorem bus_write_nmi (b : Bus) (a v : Nat)
    (h : b.ppu.nmi_interrupt.isSome = true) :
    (b.write a v).ppu.nmi_interrupt.isSome = true := by
  unfold Bus.write
  dsimp only
  repeat' split
  all_goals
    simp_all [ppu_write_ctrl_nmi, ppu_write_data_nmi, ppu_write_oam_dma_nmi,
      bus_dma_fill_nmi, Ppu.write_mask, Ppu.write_oam_addr, Ppu.write_oam_data,
      Ppu.write_scroll, Ppu.write_addr]

theorem cpu_push_nmi (c : Cpu) (d : Nat)
    (h : c.bus.ppu.nmi_interrupt.isSome = true) :
    (c.push d).bus.ppu.nmi_interrupt.isSome = true := by
  unfold Cpu.push
  dsimp only
  exact bus_write_nmi _ _ _ h

theorem cpu_push_u16_nmi (c : Cpu) (d : Nat)
    (h : c.bus.ppu.nmi_interrupt.isSome = true) :
    (c.push_u16 d).bus.ppu.nmi_interrupt.isSome = true := by
  unfold Cpu.push_u16
  dsimp only
  exact cpu_push_nmi _ _ (cpu_push_nmi _ _ h)

theorem cpu_pop_nmi_eq (c : Cpu) :
    (c.pop).2.bus.ppu.nmi_interrupt = c.bus.ppu.nmi_interrupt := by
  unfold Cpu.pop
  dsimp only
  rw [bus_read_nmi]

theorem cpu_pop_u16_nmi_eq (c : Cpu) :
    (c.pop_u16).2.bus.ppu.nmi_interrupt = c.bus.ppu.nmi_interrupt := by
  unfold Cpu.pop_u16
  dsimp only
  rw [cpu_pop_nmi_eq, cpu_pop_nmi_eq]

theorem cpu_branch_nmi_eq (c : Cpu) (r : Nat) :
    (c.branch r).2.bus.ppu.nmi_interrupt = c.bus.ppu.nmi_interrupt := by
  unfold Cpu.branch
  dsimp only
  repeat' split
  all_goals rfl

theorem cpu_load_instruction_address_nmi_eq (c : Cpu) (m : AddressingMode) :
    (c.load_instruction_address m).2.bus.ppu.nmi_interrupt = c.bus.ppu.nmi_interrupt := by
  unfold Cpu.load_instruction_address
  cases m <;> dsimp only <;> repeat' split
  all_goals simp [bus_read_nmi, bus_read_u16_nmi, bus_read_u16_zp_nmi]

theorem cpu_load_instruction_data_nmi_eq (c : Cpu) (m : AddressingMode)
    (i : Instruction) (a : Option Nat) :
    (c.load_instruction_data m i a).2.bus.ppu.nmi_interrupt = c.bus.ppu.nmi_interrupt := by
  unfold Cpu.load_instruction_data
  dsimp only
  repeat' split
  all_goals simp [bus_read_nmi]

theorem cpu_write_fetched_nmi (c : Cpu) (m : AddressingMode) (a : Option Nat) (v : Nat)
    (h : c.bus.ppu.nmi_interrupt.isSome = true) :
    (c.write_fetched m a v).bus.ppu.nmi_interrupt.isSome = true := by
  unfold Cpu.write_fetched
  repeat' split
  all_goals first
    | exact h
    | exact bus_write_nmi _ _ _ h

theorem cpu_set_zn_bus (c : Cpu) (v : Nat) :
    (c.set_zn v).bus = c.bus := rfl

theorem cpu_compare_bus (c : Cpu) (l r : Nat) :
    (c.compare l r).bus = c.bus := rfl

set_option maxHeartbeats 2000000 in
set_option maxRecDepth 8000 in
theorem cpu_execute_nmi (c : Cpu) (i : Instruction)
    (h : c.bus.ppu.nmi_interrupt.isSome = true) :
    (c.execute_instruction i).2.bus.ppu.nmi_interrupt.isSome = true := by
  obtain ⟨op, mode, cyc⟩ := i
  unfold Cpu.execute_instruction
  dsimp only
  cases op <;> dsimp only <;> repeat' split
  all_goals try (simp only [cpu_set_zn_bus, cpu_compare_bus, cpu_pop_nmi_eq,
    cpu_pop_u16_nmi_eq, cpu_branch_nmi_eq, cpu_load_instruction_address_nmi_eq,
    cpu_load_instruction_data_nmi_eq, bus_read_nmi, bus_read_u16_nmi, bus_read_u16_zp_nmi])
  all_goals try exact h
  case mk.BRK =>
    try simp only [cpu_set_zn_bus, cpu_compare_bus, cpu_pop_nmi_eq,
      cpu_pop_u16_nmi_eq, cpu_branch_nmi_eq, cpu_load_instruction_address_nmi_eq,
      cpu_load_instruction_data_nmi_eq, bus_read_nmi, bus_read_u16_nmi,
      bus_read_u16_zp_nmi]
    apply cpu_push_nmi
    apply cpu_push_u16_nmi
    try simp only [cpu_set_zn_bus, cpu_compare_bus, cpu_pop_nmi_eq,
      cpu_pop_u16_nmi_eq, cpu_branch_nmi_eq, cpu_load_instruction_address_nmi_eq,
      cpu_load_instruction_data_nmi_eq, bus_read_nmi, bus_read_u16_nmi,
      bus_read_u16_zp_nmi]
    exact h
  case mk.JSR =>
    apply cpu_push_u16_nmi
    try simp only [cpu_set_zn_bus, cpu_compare_bus, cpu_pop_nmi_eq,
      cpu_pop_u16_nmi_eq, cpu_branch_nmi_eq, cpu_load_instruction_address_nmi_eq,
      cpu_load_instruction_data_nmi_eq, bus_read_nmi, bus_read_u16_nmi,
      bus_read_u16_zp_nmi]
    exact h
  case mk.PHA =>
    apply cpu_push_nmi
    try simp only [cpu_set_zn_bus, cpu_compare_bus, cpu_pop_nmi_eq,
      cpu_pop_u16_nmi_eq, cpu_branch_nmi_eq, cpu_load_instruction_address_nmi_eq,
      cpu_load_instruction_data_nmi_eq, bus_read_nmi, bus_read_u16_nmi,
      bus_read_u16_zp_nmi]
    exact h
  case mk.PHP =>
    apply cpu_push_nmi
    try simp only [cpu_set_zn_bus, cpu_compare_bus, cpu_pop_nmi_eq,
      cpu_pop_u16_nmi_eq, cpu_branch_nmi_eq, cpu_load_instruction_address_nmi_eq,
      cpu_load_instruction_data_nmi_eq, bus_read_nmi, bus_read_u16_nmi,
      bus_read_u16_zp_nmi]
    exact h
  case mk.ASL =>
    apply cpu_write_fetched_nmi
    try simp only [cpu_set_zn_bus, cpu_compare_bus, cpu_pop_nmi_eq,
      cpu_pop_u16_nmi_eq, cpu_branch_nmi_eq, cpu_load_instruction_address_nmi_eq,
      cpu_load_instruction_data_nmi_eq, bus_read_nmi, bus_read_u16_nmi,
      bus_read_u16_zp_nmi]
    exact h
  case mk.ROL =>
    apply cpu_write_fetched_nmi
    try simp only [cpu_set_zn_bus, cpu_compare_bus, cpu_pop_nmi_eq,
      cpu_pop_u16_nmi_eq, cpu_branch_nmi_eq, cpu_load_instruction_address_nmi_eq,
      cpu_load_instruction_data_nmi_eq, bus_read_nmi, bus_read_u16_nmi,
      bus_read_u16_zp_nmi]
    exact h
  case mk.LSR =>
    apply cpu_write_fetched_nmi
    try simp only [cpu_set_zn_bus, cpu_compare_bus, cpu_pop_nmi_eq,
      cpu_pop_u16_nmi_eq, cpu_branch_nmi_eq, cpu_load_instruction_address_nmi_eq,
      cpu_load_instruction_data_nmi_eq, bus_read_nmi, bus_read_u16_nmi,
      bus_read_u16_zp_nmi]
    exact h
  case mk.ROR.isTrue =>
    apply cpu_write_fetched_nmi
    try simp only [cpu_set_zn_bus, cpu_compare_bus, cpu_pop_nmi_eq,
      cpu_pop_u16_nmi_eq, cpu_branch_nmi_eq, cpu_load_instruction_address_nmi_eq,
      cpu_load_instruction_data_nmi_eq, bus_read_nmi, bus_read_u16_nmi,
      bus_read_u16_zp_nmi]
    exact h
  case mk.ROR.isFalse =>
    apply cpu_write_fetched_nmi
    try simp only [cpu_set_zn_bus, cpu_compare_bus, cpu_pop_nmi_eq,
      cpu_pop_u16_nmi_eq, cpu_branch_nmi_eq, cpu_load_instruction_address_nmi_eq,
      cpu_load_instruction_data_nmi_eq, bus_read_nmi, bus_read_u16_nmi,
      bus_read_u16_zp_nmi]
    exact h
  case mk.INC =>
    apply cpu_write_fetched_nmi
    try simp only [cpu_set_zn_bus, cpu_compare_bus, cpu_pop_nmi_eq,
      cpu_pop_u16_nmi_eq, cpu_branch_nmi_eq, cpu_load_instruction_address_nmi_eq,
      cpu_load_instruction_data_nmi_eq, bus_read_nmi, bus_read_u16_nmi,
      bus_read_u16_zp_nmi]
    exact h
  case mk.DEC =>
    apply cpu_write_fetched_nmi
    try simp only [cpu_set_zn_bus, cpu_compare_bus, cpu_pop_nmi_eq,
      cpu_pop_u16_nmi_eq, cpu_branch_nmi_eq, cpu_load_instruction_address_nmi_eq,
      cpu_load_instruction_data_nmi_eq, bus_read_nmi, bus_read_u16_nmi,
      bus_read_u16_zp_nmi]
    exact h
  case mk.STA =>
    apply bus_write_nmi
    try simp only [cpu_set_zn_bus, cpu_compare_bus, cpu_pop_nmi_eq,
      cpu_pop_u16_nmi_eq, cpu_branch_nmi_eq, cpu_load_instruction_address_nmi_eq,
      cpu_load_instruction_data_nmi_eq, bus_read_nmi, bus_read_u16_nmi,
      bus_read_u16_zp_nmi]
    exact h
  case mk.STY =>
    apply bus_write_nmi
    try simp only [cpu_set_zn_bus, cpu_compare_bus, cpu_pop_nmi_eq,
      cpu_pop_u16_nmi_eq, cpu_branch_nmi_eq, cpu_load_instruction_address_nmi_eq,
      cpu_load_instruction_data_nmi_eq, bus_read_nmi, bus_read_u16_nmi,
      bus_read_u16_zp_nmi]
    exact h
  case mk.STX =>
    apply bus_write_nmi
    try simp only [cpu_set_zn_bus, cpu_compare_bus, cpu_pop_nmi_eq,
      cpu_pop_u16_nmi_eq, cpu_branch_nmi_eq, cpu_load_instruction_address_nmi_eq,
      cpu_load_instruction_data_nmi_eq, bus_read_nmi, bus_read_u16_nmi,
      bus_read_u16_zp_nmi]
    exact h





theorem cpu_step_nmi (c : Cpu)
    (h : c.bus.ppu.nmi_interrupt.isSome = true) :
    (Cpu.step c).bus.ppu.nmi_interrupt.isSome = true := by
  unfold Cpu.step
  dsimp only
  repeat' split
  all_goals try exact h
  all_goals (
    apply cpu_execute_nmi
    simp only [bus_read_nmi]
    exact h)

-- # Claim checks

/-- C1: the claim says a latched PPU NMI is serviced by the next `Cpu::step`
before the fetch (push `pc`, push status, set `I`, `pc = read_u16($FFFA)`,
`+7` cycles, clear the latch). The code's `Cpu::step` never calls
`Ppu::poll_nmi_status`: for every CPU state with a latched NMI the latch is
still there after the step (first conjunct, general), and concretely
`LDA #$42` runs as if no NMI existed: nothing is pushed (`sp`, `status`
unchanged), `pc` advances by the instruction size instead of loading the
`$FFFA` vector, and only the instruction's 2 cycles are added. -/
theorem c1_step_does_not_service_latched_nmi :
    (∀ c : Cpu, c.bus.ppu.nmi_interrupt.isSome = true →
      (Cpu.step c).bus.ppu.nmi_interrupt.isSome = true) ∧
    nmiLatchedCpu.bus.ppu.nmi_interrupt = some 1 ∧
    (Cpu.step nmiLatchedCpu).bus.ppu.nmi_interrupt = some 1 ∧
    (Cpu.step nmiLatchedCpu).pc = 2 ∧
    (Cpu.step nmiLatchedCpu).sp = nmiLatchedCpu.sp ∧
    (Cpu.step nmiLatchedCpu).status = nmiLatchedCpu.status ∧
    (Cpu.step nmiLatchedCpu).cycle = nmiLatchedCpu.cycle + 2 :=
  ⟨cpu_step_nmi, by decide, by decide, by decide, by decide, by decide, by decide⟩

/-- Witness for C1: the general conjunct applied to the concrete latched
state. -/
theorem c1_step_does_not_service_latched_nmi_witness :
    nmiLatchedCpu.bus.ppu.nmi_interrupt.isSome = true ∧
    (Cpu.step nmiLatchedCpu).bus.ppu.nmi_interrupt.isSome = true :=
  ⟨by decide, c1_step_does_not_service_latched_nmi.1 nmiLatchedCpu (by decide)⟩

/-- C2: the claim says each `Cpu::step` advances the PPU by `3 × k` ticks for
a `k`-cycle instruction. The code's `Cpu::step` never calls `Ppu::step`: for
every CPU state the PPU clock (`cycle`, `scanline`) is exactly where it
started after a step (general first conjunct), while the CPU does pay the
instruction's cycles — after the 2-cycle `LDA #$42` the claim would require
`ppu.cycle` to grow by 6, but it stays at 7. -/
theorem c2_step_does_not_advance_ppu :
    (∀ c : Cpu, (Cpu.step c).bus.ppu.cycle = c.bus.ppu.cycle ∧
      (Cpu.step c).bus.ppu.scanline = c.bus.ppu.scanline) ∧
    (Cpu.step ppuClockCpu).cycle = ppuClockCpu.cycle + 2 ∧
    ppuClockCpu.bus.ppu.cycle = 7 :=
  ⟨cpu_step_clock, by decide, by decide⟩

/-- C3: the claim says a taken branch adds 1 cycle, and 2 when the new `pc`
is on a different page than the old. `Cpu::branch` assigns
`self.pc = absolute_address` before calling
`page_cross(self.pc, absolute_address)`, comparing the new `pc` with itself,
so every taken branch returns 1 extra cycle. Concretely, `BNE +$20` taken
from `$00F0` lands on `$0112` (a different page) yet costs 2 + 1 = 3 cycles,
not the claimed 4. -/
theorem c3_taken_branch_always_adds_one_cycle :
    (∀ (c : Cpu) (r : Nat), (Cpu.branch c r).1 = 1) ∧
    (Cpu.step branchCpu).pc = 0x112 ∧
    (Cpu.step branchCpu).cycle = branchCpu.cycle + 3 := by
  refine ⟨?_, by decide, by decide⟩
  intro c r
  simp [Cpu.branch, Cpu.page_cross]

/-- C4: the claim says the buffered CHR behavior of the `$2007` read covers
the whole pattern-table range `$0000–$1FFF`. The source sets
`CHR_ROM_END = 0x01FF`, so the buffered path stops after `$01FF`: a read at
`$01FF` returns the old `data_buffer` (`$55`) and refills the buffer from
CHR, while a read at `$0200` falls through to the default arm, returning 0
immediately and leaving `data_buffer` untouched. -/
theorem c4_data_port_buffered_only_below_0200 :
    CHR_ROM_END = 0x01FF ∧
    (chrBoundaryPpu.read_data).1 = 0x55 ∧
    (chrBoundaryPpu.read_data).2.data_buffer = chrBoundaryPpu.chr_rom.data 0x01FF ∧
    chrReadPpu.addr.get = 0x0200 ∧
    chrReadPpu.data_buffer = 0x55 ∧
    (chrReadPpu.read_data).1 = 0 ∧
    (chrReadPpu.read_data).2.data_buffer = 0x55 := by
  decide

set_option maxRecDepth 10000 in
/-- C5: the claim says a write to `$4014` copies 256 bytes from `V << 8`
through the CPU read path into OAM at `oam_addr` (wrapping) and stalls the
CPU 513/514 cycles. The copy happens, but no stall exists anywhere in the
code: `STA $4014` with `A = $03` copies page `$0300` of RAM into OAM starting
at `oam_addr = 10` (byte `i` of the page is `(i + 1) % 256`, so
`oam_data[10] = 1`, and the wrap puts page byte 250 at `oam_data[4]`), yet
`cpu.cycle` grows by exactly the store's own 4 cycles. -/
theorem c5_oam_dma_copies_but_never_stalls :
    (Cpu.step dmaCpu).cycle = dmaCpu.cycle + 4 ∧
    (Cpu.step dmaCpu).bus.ppu.oam_data 10 = 1 ∧
    (Cpu.step dmaCpu).bus.ppu.oam_data 4 = 251 ∧
    (Cpu.step dmaCpu).bus.ppu.oam_addr = 10 := by
  decide

/-- C6: the claim says a set trainer bit (`byte6 & 0x04`) makes PRG start at
file offset `16 + 512`. The source tests `bytes[6] & 0x04 == 1`, which is
never true (the value is 0 or 4), so even with the trainer bit set the PRG
slice starts at offset 16: loading an image with `byte6 = $04`, `$AA` at
offset 16 and `$BB` at offset 528 yields a PRG whose first byte is `$AA`. -/
theorem c6_trainer_bit_never_skips_trainer :
    trainerImage.data 6 = 0x04 ∧
    LoadResult.prg_first (Cartridge.new trainerImage) = some 0xAA ∧
    trainerImage.data 16 = 0xAA ∧
    trainerImage.data 528 = 0xBB := by
  decide

/-- C7: the claim says the page-cross extra cycle is paid by read
instructions only, never by read-modify-write operations, which keep their
worst-case base. The code skips the extra only for `STA`/`STX`/`STY`: with
`X = $20`, `LDA $12F0,X` (read, page crossed) costs 4 + 1 = 5 cycles as
claimed, but `ASL $12F0,X` (RMW, base 7 already worst-case) costs 7 + 1 = 8
cycles, where the claim requires 7. The RMW write does land at the crossed
address (`$1310`, RAM-mirrored to `$0310`: `$41` becomes `$82`). -/
theorem c7_rmw_absolute_x_pays_page_cross_extra :
    (Cpu.step readCrossCpu).cycle = readCrossCpu.cycle + 5 ∧
    (Cpu.step rmwCrossCpu).cycle = rmwCrossCpu.cycle + 8 ∧
    (Cpu.step rmwCrossCpu).bus.ram 0x310 = 0x82 := by
  decide

/-- C8: the claim says an image too short for its declared ROMs yields the
truncated-image error. `Cartridge::new` has no such error: a 16-byte image
declaring one PRG page makes the PRG slice index out of range, which panics
in Rust (`LoadResult.outOfBounds` in the embedding); and, generally, the
only `Err` values the loader ever produces are the bad-magic and
iNES-version messages. -/
theorem c8_truncated_image_panics_instead_of_error :
    Cartridge.new truncatedImage = LoadResult.outOfBounds ∧
    (∀ (bytes : ByteVec) (msg : String),
      Cartridge.new bytes = LoadResult.err msg →
      msg = badMagicMsg ∨ msg = inesV2Msg ∨ msg = badVersionMsg) := by
  refine ⟨rfl, ?_⟩
  intro bytes msg h
  unfold Cartridge.new at h
  split at h
  · cases h
  split at h
  · cases h; tauto
  split at h
  · cases h
  by_cases hv : bytes.data 7 >>> 2 &&& 3 = 2
  · rw [if_pos hv] at h; cases h; tauto
  rw [if_neg hv] at h
  by_cases hv0 : bytes.data 7 >>> 2 &&& 3 ≠ 0
  · rw [if_pos hv0] at h; cases h; tauto
  rw [if_neg hv0] at h
  dsimp only at h
  repeat' split at h
  all_goals cases h

/-- Witness for C8: a 4-byte input with wrong magic bytes makes the loader
return the bad-magic error, discharging the hypothesis of the general part. -/
theorem c8_truncated_image_panics_instead_of_error_witness :
    Cartridge.new badMagicImage = LoadResult.err badMagicMsg ∧
    (badMagicMsg = badMagicMsg ∨ badMagicMsg = inesV2Msg ∨ badMagicMsg = badVersionMsg) :=
  ⟨rfl, c8_truncated_image_panics_instead_of_error.2 badMagicImage badMagicMsg rfl⟩

/-- C9: a read of `$2002` returns the status byte as it was before the read,
and afterwards `VBLANK_STARTED` is cleared, the `$2006` address latch expects
the high byte next, and the `$2005` scroll latch is false — exactly what
`Ppu::read_status` does, for every PPU state. -/
theorem c9_status_read_returns_then_clears_latches (p : Ppu) :
    (p.read_status).1 = p.status ∧
    testFlag (p.read_status).2.status StatusRegister.VBLANK_STARTED = false ∧
    (p.read_status).2.addr.high_byte = true ∧
    (p.read_status).2.scroll.latch = false := by
  refine ⟨rfl, ?_, rfl, rfl⟩
  exact testFlag_setFlag_self_false _ _ (by decide)

/-- C10: `Ppu::step` drives `SPRITE_ZERO_HIT` purely by frame timing: when a
tick does not finish a scanline the status byte is untouched; when it
advances the scanline to 241 the bit is cleared; when it wraps past 261
(frame completion) the bit is set; and advancing to any other scanline
leaves the status byte unchanged. Nothing else in the PPU (and no rendering
code) writes this bit. -/
theorem c10_sprite_zero_hit_driven_by_frame_timing (p : Ppu) (n : Nat) :
    (p.cycle + n < 341 → (p.step n).2.status = p.status) ∧
    (341 ≤ p.cycle + n → p.scanline + 1 = 241 →
      testFlag (p.step n).2.status StatusRegister.SPRITE_ZERO_HIT = false) ∧
    (341 ≤ p.cycle + n → 262 ≤ p.scanline + 1 →
      testFlag (p.step n).2.status StatusRegister.SPRITE_ZERO_HIT = true) ∧
    (341 ≤ p.cycle + n → p.scanline + 1 ≠ 241 → p.scanline + 1 < 262 →
      (p.step n).2.status = p.status) := by
  refine ⟨?_, ?_, ?_, ?_⟩
  · intro h
    simp [Ppu.step, Nat.not_le.mpr h]
  · intro h h241
    have h262 : ¬ (262 ≤ p.scanline + 1) := by omega
    cases hnmi : testFlag p.ctrl ControlRegister.GENERATE_NMI <;>
      simp [Ppu.step, h, h241, h262, hnmi, testFlag_szh_clear]
  · intro h h262
    have h241 : ¬ (p.scanline + 1 = 241) := by omega
    simp [Ppu.step, h, h241, h262, testFlag_szh_set]
  · intro h h241 h262
    simp [Ppu.step, h, h241, Nat.not_le.mpr h262]

/-- Witness for C10: a tick of 1 from `cycle = 340`, `scanline = 240` enters
scanline 241 and clears `SPRITE_ZERO_HIT`. -/
theorem c10_sprite_zero_hit_driven_by_frame_timing_witness :
    341 ≤ vblankEdgePpu.cycle + 1 ∧ vblankEdgePpu.scanline + 1 = 241 ∧
    testFlag (vblankEdgePpu.step 1).2.status StatusRegister.SPRITE_ZERO_HIT = false :=
  ⟨by decide, by decide,
    (c10_sprite_zero_hit_driven_by_frame_timing vblankEdgePpu 1).2.1 (by decide) (by decide)⟩
